import Mathlib

/-!
Shallow embedding of `src/4_003_Project_Collaboration_Competition/ddpg.py`:
a DDPG agent (class `DDGP`), an Ornstein-Uhlenbeck noise process (`OUNoise`)
and an experience replay buffer (`ReplayBuffer`).

Modelling conventions:
* Python floats are modelled as real numbers `ℝ`; numpy arrays and torch
  tensors as `List ℝ`; a network's parameter list as `List (List ℝ)`
  (one inner list per parameter tensor, flattened entry-wise).
* Randomness is made explicit: `random.random()` draws are passed in as a
  `List ℝ` of values in `[0, 1)`; the indices chosen by `random.sample`
  are passed in as a `List ℕ`.
* Python exceptions raised by the glue code itself are modelled by `PyErr`.
  A stateful method that can raise returns `State × Option PyErr`; mutations
  performed before the raise are kept in the returned state, as in Python.
* The attribute `self.batch_size` of `ReplayBuffer`, which `__init__` never
  assigns, is modelled as an `Option ℕ` field that `__init__` sets to `none`
  and no method ever sets; reading it when `none` is Python's
  `AttributeError`, exactly as `ReplayBuffer.sample` does at runtime.
-/

namespace DDPGSpec

/-- Python exceptions raised by the glue code of `ddpg.py` itself (as opposed
to exceptions propagated from the tensor library). -/
inductive PyErr where
  /-- `AttributeError`, e.g. reading `self.batch_size` on a `ReplayBuffer`. -/
  | attributeError
  /-- `NameError`, e.g. the undefined globals `agent`, `BATCH_SIZE`, `GAMMA`
  referenced inside `DDGP.learn`. -/
  | nameError
  /-- `ValueError`, e.g. `random.sample` with a sample larger than the
  population. -/
  | valueError
  /-- `ZeroDivisionError`, e.g. `self.step_mem % self.learn_every` with
  `learn_every = 0`. -/
  | zeroDivisionError
deriving Repr, DecidableEq

/-- An experience tuple `(state, action, reward, next_state, done)`, the
namedtuple `Experience` created in `ReplayBuffer.__init__`. -/
structure Experience where
  state : List ℝ
  action : List ℝ
  reward : ℝ
  next_state : List ℝ
  done : Bool

instance : Inhabited Experience := ⟨⟨[], [], 0, [], false⟩⟩

/-- `collections.deque(maxlen := cap).append e`: the deque keeps the last
`cap` appended elements (oldest first), so appending drops from the left
whatever exceeds the capacity. -/
def dequeAppend (cap : ℕ) (q : List Experience) (e : Experience) : List Experience :=
  List.drop ((q ++ [e]).length - cap) (q ++ [e])

/-- The `ReplayBuffer` object: `self.memory` (a deque with
`maxlen = buffer_size`, oldest element first) and the attribute
`self.batch_size`, which `__init__` never assigns (`none` = absent). -/
structure ReplayBuffer where
  buffer_size : ℕ
  memory : List Experience
  batch_size? : Option ℕ

/-- `ReplayBuffer.__init__(buffer_size, seed)`: an empty deque with
`maxlen = buffer_size`; note that no `self.batch_size` is ever assigned. -/
def ReplayBuffer.init (buffer_size : ℕ) : ReplayBuffer :=
  { buffer_size := buffer_size, memory := [], batch_size? := none }

/-- `ReplayBuffer.add(state, action, reward, next_state, done)`. -/
def ReplayBuffer.add (rb : ReplayBuffer) (e : Experience) : ReplayBuffer :=
  { rb with memory := dequeAppend rb.buffer_size rb.memory e }

/-- `ReplayBuffer.__len__`. -/
def ReplayBuffer.len (rb : ReplayBuffer) : ℕ :=
  rb.memory.length

/-- A sequence of `add` calls, in order. -/
def ReplayBuffer.addAll (rb : ReplayBuffer) (es : List Experience) : ReplayBuffer :=
  es.foldl ReplayBuffer.add rb

/-- The five stacked arrays `(states, actions, rewards, next_states, dones)`
returned by `ReplayBuffer.sample` (each `vstack` modelled as the list of
rows; `dones` is cast to numbers by `astype(np.uint8)` . `float`). -/
structure SampleBatch where
  states : List (List ℝ)
  actions : List (List ℝ)
  rewards : List ℝ
  next_states : List (List ℝ)
  dones : List ℝ

/-- `ReplayBuffer.sample()`.  The first thing the method does is read
`self.batch_size`, an attribute `__init__` never assigned, so on every real
buffer it raises `AttributeError`.  Were the attribute present (`some k`),
`random.sample(self.memory, k)` would pick `k` distinct indices (passed in
here as `chosen`) or raise `ValueError` when `k` exceeds the population. -/
def ReplayBuffer.sample (rb : ReplayBuffer) (chosen : List ℕ) :
    Except PyErr SampleBatch :=
  match rb.batch_size? with
  | none => .error .attributeError
  | some k =>
    if chosen.length = k ∧ chosen.Nodup ∧ ∀ i ∈ chosen, i < rb.memory.length then
      let exps := chosen.map (fun i => rb.memory.getD i default)
      .ok { states := exps.map Experience.state
            actions := exps.map Experience.action
            rewards := exps.map Experience.reward
            next_states := exps.map Experience.next_state
            dones := exps.map (fun e => if e.done then (1 : ℝ) else 0) }
    else .error .valueError

/-- The `OUNoise` object: `self.mu = mu * np.ones(size)`, the scalars
`theta` and `sigma`, and the internal `state`. -/
structure OUNoise where
  mu : List ℝ
  theta : ℝ
  sigma : ℝ
  state : List ℝ

/-- `OUNoise.reset()`: restore the internal state to the mean `mu`. -/
def OUNoise.reset (n : OUNoise) : OUNoise :=
  { n with state := n.mu }

/-- `OUNoise.__init__(size, seed, mu=0., theta=0.15, sigma=0.2)`:
`self.mu = mu * np.ones(size)` followed by `self.reset()`. -/
def OUNoise.init (size : ℕ) (mu theta sigma : ℝ) : OUNoise :=
  OUNoise.reset { mu := List.replicate size mu, theta := theta, sigma := sigma,
                  state := [] }

/-- One component of the `OUNoise.sample` update:
`x + (theta * (mu - x) + sigma * w)` where `w` is one `random.random()`
draw. -/
def ouStep (theta sigma mu x w : ℝ) : ℝ :=
  x + (theta * (mu - x) + sigma * w)

/-- `OUNoise.sample()`: update the internal state elementwise by `ouStep`
(the numpy expression `x + self.theta * (self.mu - x) + self.sigma * w`) and
return the updated state.  `draws` are the `random.random()` values, one per
component, each in `[0, 1)`. -/
def OUNoise.sample (n : OUNoise) (draws : List ℝ) : OUNoise × List ℝ :=
  let newState :=
    List.zipWith (fun p w => ouStep n.theta n.sigma p.1 p.2 w)
      (n.mu.zip n.state) draws
  ({ n with state := newState }, newState)

/-- One entry-wise tensor update performed inside `DDGP.soft_update`:
`target_param.data.copy_(tau * local_param.data + (1.0 - tau) * target_param.data)`.
Both tensors have the same shape when the two models are equally shaped. -/
def softUpdateTensor (tau : ℝ) (localp targetp : List ℝ) : List ℝ :=
  List.zipWith (fun l t => tau * l + (1 - tau) * t) localp targetp

/-- The loop of `DDGP.soft_update`:
`for target_param, local_param in zip(target_model.parameters(), local_model.parameters())`.
`zip` stops at the shorter parameter list, so any trailing target parameters
are left unchanged and any trailing local parameters are ignored. -/
def softUpdateParams : List (List ℝ) → List (List ℝ) → ℝ → List (List ℝ)
  | t :: ts, l :: ls, tau => softUpdateTensor tau l t :: softUpdateParams ts ls tau
  | ts, [], _ => ts
  | [], _ :: _, _ => []

/-- `DDGP.soft_update(local_model, target_model, tau)`: returns the (local,
target) parameter lists after the call; the local model is only read from. -/
def soft_update (localps targetps : List (List ℝ)) (tau : ℝ) :
    List (List ℝ) × List (List ℝ) :=
  (localps, softUpdateParams targetps localps tau)

/-- The `DDGP` agent object: constructor arguments, the four networks'
parameter lists, the two optimizers' state (kept abstract as a payload),
the noise process, the replay buffer, the step counter, the train flag and
the exploration coefficient. -/
structure AgentState where
  name : String
  state_size : ℕ
  action_size : ℕ
  buffer_size : ℕ
  batch_size : ℕ
  min_req_exp : ℕ
  consec_learn_iter : ℕ
  learn_every : ℕ
  lr_actor : ℝ
  lr_critic : ℝ
  weight_decay : ℝ
  tau : ℝ
  gamma : ℝ
  actor_local : List (List ℝ)
  actor_target : List (List ℝ)
  actor_optim : List (List ℝ)
  critic_local : List (List ℝ)
  critic_target : List (List ℝ)
  critic_optim : List (List ℝ)
  noise : OUNoise
  memory : ReplayBuffer
  step_mem : ℕ
  train : Bool
  exploration : ℝ

namespace DDGP

/-- `DDGP.__init__`.  The initial parameters of the `Actor` and `Critic`
networks and the freshly constructed optimizers' state come from the tensor
library (module `model` and `torch.optim`), so they are taken as arguments. -/
def init (name : String) (state_size action_size : ℕ)
    (buffer_size batch_size min_req_exp consec_learn_iter learn_every : ℕ)
    (lr_actor lr_critic weight_decay tau gamma : ℝ)
    (actor0 actorTarget0 critic0 criticTarget0 actorOptim0 criticOptim0 :
      List (List ℝ)) : AgentState :=
  { name := name, state_size := state_size, action_size := action_size,
    buffer_size := buffer_size, batch_size := batch_size,
    min_req_exp := min_req_exp, consec_learn_iter := consec_learn_iter,
    learn_every := learn_every, lr_actor := lr_actor, lr_critic := lr_critic,
    weight_decay := weight_decay, tau := tau, gamma := gamma,
    actor_local := actor0, actor_target := actorTarget0,
    actor_optim := actorOptim0,
    critic_local := critic0, critic_target := criticTarget0,
    critic_optim := criticOptim0,
    noise := OUNoise.init action_size 0 0.15 0.2,
    memory := ReplayBuffer.init buffer_size,
    step_mem := 0, train := false, exploration := 1 }

/-- `DDGP.memorize(state, action, reward, next_tate, done)`:
`self.memory.add(...)`. -/
def memorize (s : AgentState) (st ac : List ℝ) (r : ℝ) (ns : List ℝ)
    (d : Bool) : AgentState :=
  { s with memory := s.memory.add ⟨st, ac, r, ns, d⟩ }

/-- `DDGP.update_counter()`: increment `self.step_mem`; when the incremented
counter is a multiple of `self.learn_every`, set `self.train = True`.
Python's `%` raises `ZeroDivisionError` when `learn_every = 0`. -/
def update_counter (s : AgentState) : AgentState × Option PyErr :=
  let s1 := { s with step_mem := s.step_mem + 1 }
  if s.learn_every = 0 then (s1, some .zeroDivisionError)
  else if s1.step_mem % s.learn_every = 0 then
    ({ s1 with train := true }, none)
  else (s1, none)

/-- `DDGP.learn()`.  The method first multiplies `self.exploration` by
`0.999`, then calls `self.memory.sample()` — which raises `AttributeError`
on every buffer built by `ReplayBuffer.__init__` — and, were a batch ever
returned, the very next statements read the undefined module globals
`agent`, `BATCH_SIZE` and `GAMMA` (`# TODO: arreglar`), raising `NameError`
before any optimizer step or soft update is reached. -/
def learn (s : AgentState) (chosen : List ℕ) : AgentState × Option PyErr :=
  let s1 := { s with exploration := s.exploration * 0.999 }
  match s1.memory.sample chosen with
  | .error e => (s1, some e)
  | .ok _ => (s1, some .nameError)

/-- `DDGP.trigger_learn()`: set `self.train = False`, multiply
`self.exploration` by `0.975`, and call `self.learn()` when the buffer holds
more than `self.batch_size` experiences. -/
def trigger_learn (s : AgentState) (chosen : List ℕ) :
    AgentState × Option PyErr :=
  let s1 := { s with train := false, exploration := s.exploration * 0.975 }
  if s1.batch_size < s1.memory.len then learn s1 chosen else (s1, none)

/-- `np.clip(x, -1, 1)` on one component: `min (max x lo) hi`. -/
def npclip (lo hi x : ℝ) : ℝ :=
  min (max x lo) hi

/-- `DDGP.act(state, add_noise)`: run the actor network (its output is taken
as the argument `actorOut`), optionally add `self.noise.sample() *
self.exploration` elementwise, and clip every component to `[-1, 1]`.
Returns the updated agent (sampling advances the noise state) and the
action array. -/
def act (s : AgentState) (actorOut : List ℝ) (draws : List ℝ)
    (add_noise : Bool) : AgentState × List ℝ :=
  if add_noise then
    let (n1, w) := s.noise.sample draws
    ({ s with noise := n1 },
     (List.zipWith (fun a ni => a + ni * s.exploration) actorOut w).map
       (npclip (-1) 1))
  else (s, actorOut.map (npclip (-1) 1))

/-- `DDGP.reset()`: `self.noise.reset()`, `self.step_mem = 0`,
`self.train = False`. -/
def reset (s : AgentState) : AgentState :=
  { s with noise := s.noise.reset, step_mem := 0, train := false }

/-- `os.path.join(a, b)` for the two-argument case used by `DDGP.save`. -/
def osPathJoin (a b : String) : String :=
  if b.startsWith "/" then b
  else if a = "" then b
  else if a.endsWith "/" then a ++ b
  else a ++ "/" ++ b

/-- A value stored in the checkpoint dictionary built by `DDGP.save`: a
network's `state_dict()` or an optimizer's `state_dict()`. -/
inductive SaveVal where
  | netSD (params : List (List ℝ))
  | optimSD (payload : List (List ℝ))

/-- `DDGP.save(save_path, iteration)`: the agent (unchanged), the path of
the file written (`os.path.join(save_path, self.name +
'i_episode-{}.pt'.format(iteration))`) and the dictionary handed to
`torch.save`, as an ordered association list. -/
def save (s : AgentState) (save_path : String) (iteration : ℕ) :
    AgentState × String × List (String × SaveVal) :=
  (s,
   osPathJoin save_path (s.name ++ "i_episode-" ++ toString iteration ++ ".pt"),
   [("actor_local_params", .netSD s.actor_local),
    ("actor_target_params", .netSD s.actor_target),
    ("actor_optim_params", .optimSD s.actor_optim),
    ("critic_local_params", .netSD s.critic_local),
    ("critic_target_params", .netSD s.critic_target),
    ("critic_optim_params", .optimSD s.critic_optim)])

end DDGP

/-- One public operation of the agent (the arguments a caller supplies,
with the tensor-library outputs and random draws made explicit). -/
inductive AgentOp where
  | memorize (st ac : List ℝ) (r : ℝ) (ns : List ℝ) (d : Bool)
  | trigger_learn (chosen : List ℕ)
  | update_counter
  | act (actorOut draws : List ℝ) (add_noise : Bool)
  | reset
  | learn (chosen : List ℕ)
  | soft_update_critic
  | soft_update_actor
  | save (save_path : String) (iteration : ℕ)

/-- The agent state after one operation (an exception, when raised, leaves
the mutations performed before it, as in Python). -/
def AgentState.step (s : AgentState) : AgentOp → AgentState
  | .memorize st ac r ns d => DDGP.memorize s st ac r ns d
  | .trigger_learn chosen => (DDGP.trigger_learn s chosen).1
  | .update_counter => (DDGP.update_counter s).1
  | .act actorOut draws b => (DDGP.act s actorOut draws b).1
  | .reset => DDGP.reset s
  | .learn chosen => (DDGP.learn s chosen).1
  | .soft_update_critic =>
      { s with critic_target := (soft_update s.critic_local s.critic_target s.tau).2 }
  | .soft_update_actor =>
      { s with actor_target := (soft_update s.actor_local s.actor_target s.tau).2 }
  | .save save_path iteration => (DDGP.save s save_path iteration).1

/-- The agent state after a sequence of operations. -/
def AgentState.run (s : AgentState) (ops : List AgentOp) : AgentState :=
  ops.foldl AgentState.step s

/-- A concrete agent: `DDGP("a", 1, 1, seed, batch_size=1, learn_every=4, ...)`
with one-parameter networks, used to exercise the theorems below. -/
def agent0 : AgentState :=
  DDGP.init "a" 1 1 10 1 200 2 4 0.0001 0.001 0.0001 0.001 0.99
    [[0]] [[0]] [[0]] [[0]] [[0]] [[0]]

/-- `agent0` after two `memorize` calls: its buffer holds two experiences. -/
def agent2 : AgentState :=
  DDGP.memorize (DDGP.memorize agent0 [0] [0] 0 [0] false) [0] [0] 0 [0] false

/-! ### Helper lemmas -/

lemma dequeAppend_length_le (cap : ℕ) (q : List Experience) (e : Experience) :
    (dequeAppend cap q e).length ≤ cap := by
  simp only [dequeAppend, List.length_drop, List.length_append,
    List.length_singleton]
  omega

lemma add_buffer_size (rb : ReplayBuffer) (e : Experience) :
    (rb.add e).buffer_size = rb.buffer_size := rfl

lemma add_batch_size (rb : ReplayBuffer) (e : Experience) :
    (rb.add e).batch_size? = rb.batch_size? := rfl

lemma addAll_len_le :
    ∀ (es : List Experience) (rb : ReplayBuffer), rb.len ≤ rb.buffer_size →
      (rb.addAll es).len ≤ (rb.addAll es).buffer_size
  | [], rb, h => h
  | e :: es, rb, _ =>
    addAll_len_le es (rb.add e) (dequeAppend_length_le rb.buffer_size rb.memory e)

lemma addAll_buffer_size :
    ∀ (es : List Experience) (rb : ReplayBuffer),
      (rb.addAll es).buffer_size = rb.buffer_size
  | [], _ => rfl
  | _ :: es, rb => addAll_buffer_size es (rb.add _)

lemma addAll_batch_size :
    ∀ (es : List Experience) (rb : ReplayBuffer),
      (rb.addAll es).batch_size? = rb.batch_size?
  | [], _ => rfl
  | _ :: es, rb => addAll_batch_size es (rb.add _)

/-! ### Claims -/

/-- C1: the replay buffer is a fixed-capacity rotating bounded queue.  For
every sequence of `add` calls on a buffer built with capacity `cap`, the
length reported by `__len__` never exceeds `cap`; an `add` when the length
is below `cap` appends the experience and increases the length by exactly
one; an `add` when the length equals `cap` (and some experience is stored)
evicts the oldest stored experience — the head of the deque — and leaves
the length equal to `cap`. -/
theorem C1_replay_buffer_bounded_fifo (cap : ℕ) (es : List Experience)
    (rb : ReplayBuffer) (e : Experience) :
    ((ReplayBuffer.init cap).addAll es).len ≤ cap ∧
    (rb.len < rb.buffer_size →
      (rb.add e).memory = rb.memory ++ [e] ∧ (rb.add e).len = rb.len + 1) ∧
    (rb.len = rb.buffer_size → 0 < rb.len →
      (rb.add e).memory = rb.memory.tail ++ [e] ∧
      (rb.add e).len = rb.buffer_size) := by
  refine ⟨?_, ?_, ?_⟩
  · have h := addAll_len_le es (ReplayBuffer.init cap) (Nat.zero_le cap)
    rwa [addAll_buffer_size] at h
  · intro h
    simp only [ReplayBuffer.len] at h
    have hd : rb.memory.length + 1 - rb.buffer_size = 0 := by omega
    constructor
    · simp [ReplayBuffer.add, dequeAppend, hd]
    · simp [ReplayBuffer.add, ReplayBuffer.len, dequeAppend, hd]
  · intro h h0
    simp only [ReplayBuffer.len] at h h0
    obtain ⟨a, q, hq⟩ : ∃ a q, rb.memory = a :: q := by
      cases hm : rb.memory with
      | nil => rw [hm] at h0; simp at h0
      | cons a q => exact ⟨a, q, rfl⟩
    have hlen : q.length + 1 = rb.buffer_size := by
      rw [hq] at h; simpa using h
    have hd : ((a :: q) ++ [e]).length - rb.buffer_size = 1 := by
      simp only [List.length_append, List.length_cons, List.length_nil]
      omega
    constructor
    · show List.drop ((rb.memory ++ [e]).length - rb.buffer_size)
        (rb.memory ++ [e]) = rb.memory.tail ++ [e]
      rw [hq, hd]
      simp
    · show (List.drop ((rb.memory ++ [e]).length - rb.buffer_size)
        (rb.memory ++ [e])).length = rb.buffer_size
      rw [hq, hd]
      simp
      omega

/-- C1 witness: a buffer of capacity 2; three adds stay within the bound, an
add below capacity appends, and an add at capacity rotates out the head. -/
theorem C1_replay_buffer_bounded_fifo_witness :
    ((ReplayBuffer.init 2).addAll [default, default, default]).len ≤ 2 ∧
    (({ buffer_size := 2, memory := [default], batch_size? := none } :
        ReplayBuffer).add default).len = 2 ∧
    (({ buffer_size := 2, memory := [⟨[0], [0], 0, [0], false⟩, default],
        batch_size? := none } : ReplayBuffer).add default).memory =
      [default, default] := by
  refine ⟨(C1_replay_buffer_bounded_fifo 2 [default, default, default]
    (ReplayBuffer.init 2) default).1, ?_, ?_⟩
  · have h := (C1_replay_buffer_bounded_fifo 2 []
      ({ buffer_size := 2, memory := [default], batch_size? := none })
      default).2.1 (by decide)
    rw [h.2]
    rfl
  · have h := (C1_replay_buffer_bounded_fifo 2 []
      ({ buffer_size := 2, memory := [⟨[0], [0], 0, [0], false⟩, default],
         batch_size? := none }) default).2.2 (by decide) (by decide)
    rw [h.1]
    rfl

/-- C4 (code bug): on every buffer reachable from `ReplayBuffer.__init__`
by `add` calls — however many experiences it holds — `sample()` raises
`AttributeError`, because it reads `self.batch_size`, an attribute the
constructor never assigns; it never returns a batch. -/
theorem C4_sample_raises_attribute_error (cap : ℕ) (es : List Experience)
    (chosen : List ℕ) :
    ((ReplayBuffer.init cap).addAll es).sample chosen =
      .error PyErr.attributeError := by
  have h : ((ReplayBuffer.init cap).addAll es).batch_size? = none :=
    addAll_batch_size es (ReplayBuffer.init cap)
  unfold ReplayBuffer.sample
  rw [h]

/-- C2 (code bug): when the replay buffer holds more than `batch_size`
experiences, `trigger_learn` calls `learn`, which calls
`ReplayBuffer.sample`; on every real buffer (its `batch_size` attribute was
never assigned) sample raises `AttributeError` — an error of the glue code
itself, not one propagated from the tensor library. -/
theorem C2_trigger_learn_raises_glue_error (s : AgentState) (chosen : List ℕ)
    (hattr : s.memory.batch_size? = none)
    (hlen : s.batch_size < s.memory.len) :
    (DDGP.trigger_learn s chosen).2 = some PyErr.attributeError := by
  simp only [DDGP.trigger_learn, DDGP.learn, ReplayBuffer.sample, hattr,
    if_pos hlen]

/-- C2 witness: a concrete agent with `batch_size = 1` and two stored
experiences; `trigger_learn` raises `AttributeError`. -/
theorem C2_trigger_learn_raises_glue_error_witness :
    agent2.memory.batch_size? = none ∧
    agent2.batch_size < agent2.memory.len ∧
    (DDGP.trigger_learn agent2 []).2 = some PyErr.attributeError :=
  ⟨rfl, by decide,
    C2_trigger_learn_raises_glue_error agent2 [] rfl (by decide)⟩

lemma softUpdateTensor_getD (tau : ℝ) (lp : List ℝ) :
    ∀ (tp : List ℝ), lp.length = tp.length → ∀ j,
      (softUpdateTensor tau lp tp).getD j 0 =
        tau * lp.getD j 0 + (1 - tau) * tp.getD j 0 := by
  induction lp with
  | nil =>
    intro tp h j
    cases tp with
    | nil => simp [softUpdateTensor]
    | cons t ts => simp at h
  | cons l ls ih =>
    intro tp h j
    cases tp with
    | nil => simp at h
    | cons t ts =>
      cases j with
      | zero => simp [softUpdateTensor]
      | succ j =>
        simp only [softUpdateTensor, List.zipWith_cons_cons,
          List.getD_cons_succ]
        exact ih ts (by simpa using h) j

lemma softUpdateParams_getD (tau : ℝ) (ts : List (List ℝ)) :
    ∀ (ls : List (List ℝ)), ts.length = ls.length →
      (∀ i, (ts.getD i []).length = (ls.getD i []).length) →
      ∀ i j, ((softUpdateParams ts ls tau).getD i []).getD j 0 =
        tau * ((ls.getD i []).getD j 0) +
        (1 - tau) * ((ts.getD i []).getD j 0) := by
  induction ts with
  | nil =>
    intro ls h _ i j
    cases ls with
    | nil => simp [softUpdateParams]
    | cons l ls => simp at h
  | cons t ts ih =>
    intro ls h hshape i j
    cases ls with
    | nil => simp at h
    | cons l ls =>
      cases i with
      | zero =>
        simp only [softUpdateParams, List.getD_cons_zero]
        exact softUpdateTensor_getD tau l t (hshape 0).symm j
      | succ i =>
        simp only [softUpdateParams, List.getD_cons_succ]
        exact ih ls (by simpa using h) (fun i => hshape (i + 1)) i j

/-- C3: `soft_update(local_model, target_model, tau)` is an exponential
moving average of the target toward the local network: for equally shaped
parameter lists, every entry of the updated target equals
`tau * local + (1 - tau) * target` (entries are addressed with `getD`, the
default `0` making out-of-range entries agree trivially), and the local
parameters are unchanged. -/
theorem C3_soft_update_ema (tau : ℝ) (localps targetps : List (List ℝ))
    (hlen : targetps.length = localps.length)
    (hshape : ∀ i, (targetps.getD i []).length = (localps.getD i []).length) :
    (soft_update localps targetps tau).1 = localps ∧
    ∀ i j, ((soft_update localps targetps tau).2.getD i []).getD j 0 =
      tau * ((localps.getD i []).getD j 0) +
      (1 - tau) * ((targetps.getD i []).getD j 0) :=
  ⟨rfl, softUpdateParams_getD tau targetps localps hlen hshape⟩

/-- C3 witness: one 2-entry parameter tensor, `tau = 1/2`:
the blended entry `(1/2)*3 + (1 - 1/2)*5` and the untouched local list. -/
theorem C3_soft_update_ema_witness :
    (soft_update [[(1 : ℝ), 3]] [[(2 : ℝ), 5]] (1 / 2)).1 = [[(1 : ℝ), 3]] ∧
    ((soft_update [[(1 : ℝ), 3]] [[(2 : ℝ), 5]] (1 / 2)).2.getD 0 []).getD 1 0 =
      (1 / 2) * 3 + (1 - 1 / 2) * 5 := by
  have h := C3_soft_update_ema (1 / 2) [[(1 : ℝ), 3]] [[(2 : ℝ), 5]] rfl
    (fun i => by cases i <;> rfl)
  refine ⟨h.1, ?_⟩
  have h2 := h.2 0 1
  simpa using h2

/-- C5 (code bug): the noise added by `OUNoise.sample` is built from
`random.random()` draws, which are uniform on `[0, 1)` — not zero-mean:
every scaled increment `sigma * w` is nonnegative and at most `sigma`, and
the mean of the uniform distribution on `[0, 1)` (the distribution of each
draw) is `1/2`, not `0`.  The `reset` part of the claim does hold: it
restores the internal state to `mu`. -/
theorem C5_ou_draws_not_zero_mean (n : OUNoise) (draws : List ℝ)
    (hdraws : ∀ w ∈ draws, 0 ≤ w ∧ w < 1) (hs : 0 ≤ n.sigma) :
    (∀ w ∈ draws, 0 ≤ n.sigma * w ∧ n.sigma * w ≤ n.sigma) ∧
    n.reset.state = n.mu ∧
    (∫ x in (0 : ℝ)..1, x) = 1 / 2 := by
  refine ⟨?_, rfl, ?_⟩
  · intro w hw
    obtain ⟨h0, h1⟩ := hdraws w hw
    exact ⟨mul_nonneg hs h0, mul_le_of_le_one_right hs h1.le⟩
  · simp

/-- C5 witness: the default noise process (`mu=0, theta=0.15, sigma=0.2`)
and the single draw `1/2`. -/
theorem C5_ou_draws_not_zero_mean_witness :
    (∀ w ∈ [(1 : ℝ) / 2],
      0 ≤ (OUNoise.init 1 0 0.15 0.2).sigma * w ∧
      (OUNoise.init 1 0 0.15 0.2).sigma * w ≤ (OUNoise.init 1 0 0.15 0.2).sigma) ∧
    (OUNoise.init 1 0 0.15 0.2).reset.state = (OUNoise.init 1 0 0.15 0.2).mu ∧
    (∫ x in (0 : ℝ)..1, x) = 1 / 2 :=
  C5_ou_draws_not_zero_mean (OUNoise.init 1 0 0.15 0.2) [(1 : ℝ) / 2]
    (by norm_num) (by norm_num [OUNoise.init, OUNoise.reset])

/-- C6 (code bug): no call to `learn` ever completes — `memory.sample()`
raises `AttributeError` (and, past it, the undefined globals `agent`,
`BATCH_SIZE`, `GAMMA` would raise `NameError`) before the
soft-update statements are reached, so the target networks are never
soft-updated by `learn`. -/
theorem C6_learn_never_completes (s : AgentState) (chosen : List ℕ) :
    ((DDGP.learn s chosen).2).isSome = true ∧
    (DDGP.learn s chosen).1.critic_target = s.critic_target ∧
    (DDGP.learn s chosen).1.actor_target = s.actor_target := by
  simp only [DDGP.learn]
  cases h : s.memory.sample chosen <;> simp [h]

/-- C7: `save(save_path, iteration)` leaves the agent unchanged and hands
`torch.save` the file path `os.path.join(save_path, name +
'i_episode-' + iteration + '.pt')` and a dictionary whose keys are exactly
the six checkpoint entries, each holding the corresponding network's or
optimizer's state dictionary. -/
theorem C7_save_checkpoint (s : AgentState) (save_path : String)
    (iteration : ℕ) :
    (DDGP.save s save_path iteration).1 = s ∧
    (DDGP.save s save_path iteration).2.1 =
      DDGP.osPathJoin save_path
        (s.name ++ "i_episode-" ++ toString iteration ++ ".pt") ∧
    (DDGP.save s save_path iteration).2.2.map Prod.fst =
      ["actor_local_params", "actor_target_params", "actor_optim_params",
       "critic_local_params", "critic_target_params",
       "critic_optim_params"] ∧
    (DDGP.save s save_path iteration).2.2.lookup "actor_local_params" =
      some (.netSD s.actor_local) ∧
    (DDGP.save s save_path iteration).2.2.lookup "actor_target_params" =
      some (.netSD s.actor_target) ∧
    (DDGP.save s save_path iteration).2.2.lookup "actor_optim_params" =
      some (.optimSD s.actor_optim) ∧
    (DDGP.save s save_path iteration).2.2.lookup "critic_local_params" =
      some (.netSD s.critic_local) ∧
    (DDGP.save s save_path iteration).2.2.lookup "critic_target_params" =
      some (.netSD s.critic_target) ∧
    (DDGP.save s save_path iteration).2.2.lookup "critic_optim_params" =
      some (.optimSD s.critic_optim) := by
  refine ⟨rfl, rfl, rfl, ?_, ?_, ?_, ?_, ?_, ?_⟩ <;> rfl

lemma npclip_bounds (lo hi x : ℝ) (h : lo ≤ hi) :
    lo ≤ DDGP.npclip lo hi x ∧ DDGP.npclip lo hi x ≤ hi :=
  ⟨le_min (le_max_right x lo) h, min_le_right _ _⟩

/-- C8: with or without noise, every component of the action array returned
by `act` lies in `[-1, 1]`, because the last step is `np.clip(action, -1, 1)`. -/
theorem C8_act_in_unit_interval (s : AgentState) (actorOut draws : List ℝ)
    (add_noise : Bool) :
    ∀ y ∈ (DDGP.act s actorOut draws add_noise).2, -1 ≤ y ∧ y ≤ 1 := by
  intro y hy
  have hb : ∀ x : ℝ, -1 ≤ DDGP.npclip (-1) 1 x ∧ DDGP.npclip (-1) 1 x ≤ 1 :=
    fun x => npclip_bounds (-1) 1 x (by norm_num)
  cases add_noise with
  | false =>
    simp only [DDGP.act, Bool.false_eq_true, if_false, List.mem_map] at hy
    obtain ⟨x, _, rfl⟩ := hy
    exact hb x
  | true =>
    simp only [DDGP.act, OUNoise.sample, if_true, List.mem_map] at hy
    obtain ⟨x, _, rfl⟩ := hy
    exact hb x

/-- C8 witness: the concrete agent acting without noise on the actor output
`[0]`; the clipped component lies in `[-1, 1]`. -/
theorem C8_act_in_unit_interval_witness :
    DDGP.npclip (-1) 1 0 ∈ (DDGP.act agent0 [0] [] false).2 ∧
    (-1 ≤ DDGP.npclip (-1) 1 0 ∧ DDGP.npclip (-1) 1 0 ≤ 1) :=
  ⟨by simp [DDGP.act],
    C8_act_in_unit_interval agent0 [0] [] false _ (by simp [DDGP.act])⟩

lemma step_exploration_factor (s : AgentState) (op : AgentOp) :
    (s.step op).exploration = s.exploration ∨
    (s.step op).exploration = s.exploration * 0.975 ∨
    (s.step op).exploration = s.exploration * 0.999 ∨
    (s.step op).exploration = s.exploration * 0.975 * 0.999 := by
  cases op with
  | memorize st ac r ns d => left; rfl
  | trigger_learn chosen =>
    simp only [AgentState.step, DDGP.trigger_learn, DDGP.learn]
    split
    · cases h : s.memory.sample chosen <;> simp [h]
    · right; left; rfl
  | update_counter =>
    left
    simp only [AgentState.step, DDGP.update_counter]
    split
    · rfl
    · split <;> rfl
  | act actorOut draws b =>
    left
    simp only [AgentState.step, DDGP.act]
    split <;> rfl
  | reset => left; rfl
  | learn chosen =>
    simp only [AgentState.step, DDGP.learn]
    cases h : s.memory.sample chosen <;> simp [h]
  | soft_update_critic => left; rfl
  | soft_update_actor => left; rfl
  | save save_path iteration => left; rfl

lemma run_exploration_bounds :
    ∀ (ops : List AgentOp) (s : AgentState), 0 < s.exploration →
      s.exploration ≤ 1 →
      0 < (s.run ops).exploration ∧ (s.run ops).exploration ≤ 1
  | [], _, h0, h1 => ⟨h0, h1⟩
  | op :: ops, s, h0, h1 => by
    have hb : 0 < (s.step op).exploration ∧ (s.step op).exploration ≤ 1 := by
      rcases step_exploration_factor s op with h | h | h | h <;> rw [h] <;>
        constructor <;> nlinarith
    exact run_exploration_bounds ops (s.step op) hb.1 hb.2

/-- C9: the exploration coefficient starts at `1.0`; every operation either
leaves it unchanged or multiplies it by `0.975` (`trigger_learn`), by
`0.999` (`learn`), or by both (a `trigger_learn` that goes on to `learn`);
hence after any sequence of agent operations `0 < exploration ≤ 1`. -/
theorem C9_exploration_coefficient_invariant (name : String)
    (state_size action_size buffer_size batch_size min_req_exp
      consec_learn_iter learn_every : ℕ)
    (lr_actor lr_critic weight_decay tau gamma : ℝ)
    (a0 at0 c0 ct0 ao0 co0 : List (List ℝ)) (ops : List AgentOp)
    (s : AgentState) (op : AgentOp) :
    (DDGP.init name state_size action_size buffer_size batch_size min_req_exp
      consec_learn_iter learn_every lr_actor lr_critic weight_decay tau gamma
      a0 at0 c0 ct0 ao0 co0).exploration = 1 ∧
    ((s.step op).exploration = s.exploration ∨
      (s.step op).exploration = s.exploration * 0.975 ∨
      (s.step op).exploration = s.exploration * 0.999 ∨
      (s.step op).exploration = s.exploration * 0.975 * 0.999) ∧
    (0 < ((DDGP.init name state_size action_size buffer_size batch_size
        min_req_exp consec_learn_iter learn_every lr_actor lr_critic
        weight_decay tau gamma a0 at0 c0 ct0 ao0 co0).run ops).exploration ∧
      ((DDGP.init name state_size action_size buffer_size batch_size
        min_req_exp consec_learn_iter learn_every lr_actor lr_critic
        weight_decay tau gamma a0 at0 c0 ct0 ao0 co0).run ops).exploration ≤ 1) :=
  ⟨rfl, step_exploration_factor s op,
    run_exploration_bounds ops _ one_pos le_rfl⟩

/-- C10: `update_counter` increments `step_mem` by one and the resulting
train flag is true exactly when it already was or the incremented counter is
a multiple of `learn_every` (it never goes back to false); `reset` zeroes
`step_mem`, clears `train`, restores the noise state to `mu`, and leaves the
replay buffer, the networks and the exploration coefficient unchanged. -/
theorem C10_update_counter_and_reset (s : AgentState)
    (h : 0 < s.learn_every) :
    (DDGP.update_counter s).1.step_mem = s.step_mem + 1 ∧
    (DDGP.update_counter s).2 = none ∧
    ((DDGP.update_counter s).1.train = true ↔
      (s.train = true ∨ (s.step_mem + 1) % s.learn_every = 0)) ∧
    (DDGP.update_counter s).1.memory = s.memory ∧
    (DDGP.update_counter s).1.exploration = s.exploration ∧
    (DDGP.update_counter s).1.noise = s.noise ∧
    (DDGP.reset s).step_mem = 0 ∧
    (DDGP.reset s).train = false ∧
    (DDGP.reset s).noise.state = s.noise.mu ∧
    (DDGP.reset s).memory = s.memory ∧
    (DDGP.reset s).exploration = s.exploration ∧
    (DDGP.reset s).actor_local = s.actor_local ∧
    (DDGP.reset s).actor_target = s.actor_target ∧
    (DDGP.reset s).critic_local = s.critic_local ∧
    (DDGP.reset s).critic_target = s.critic_target := by
  have hne : ¬s.learn_every = 0 := Nat.pos_iff_ne_zero.mp h
  unfold DDGP.update_counter
  rw [if_neg hne]
  by_cases hm : (s.step_mem + 1) % s.learn_every = 0
  · rw [if_pos hm]
    exact ⟨rfl, rfl, by simp [hm], rfl, rfl, rfl, rfl, rfl, rfl, rfl, rfl,
      rfl, rfl, rfl, rfl⟩
  · rw [if_neg hm]
    exact ⟨rfl, rfl, by simp [hm], rfl, rfl, rfl, rfl, rfl, rfl, rfl, rfl,
      rfl, rfl, rfl, rfl⟩

/-- C10 witness: the concrete agent (`learn_every = 4`, `step_mem = 0`):
one `update_counter` call moves the counter to 1 without error. -/
theorem C10_update_counter_and_reset_witness :
    0 < agent0.learn_every ∧
    (DDGP.update_counter agent0).1.step_mem = agent0.step_mem + 1 ∧
    (DDGP.update_counter agent0).2 = none :=
  ⟨by decide, (C10_update_counter_and_reset agent0 (by decide)).1,
    (C10_update_counter_and_reset agent0 (by decide)).2.1⟩

end DDPGSpec
